import Mathlib

/-!
Verification of the field-mapping and upsert engine of
`scripts/issue_to_feishu_ids.py` (Issue → Feishu Bitable sync).

Strings are modelled as `List Char`.  Python dictionaries are modelled as
association lists with first-match lookup and in-place replacement on
assignment (Python dicts keep unique keys, so the two agree).  Each Python
function of the script is translated into a Lean definition of the same name.
-/

set_option maxRecDepth 4000

/-! ### Python string primitives -/

/-- Python whitespace characters relevant to `str.strip` / `\s`. -/
def isWS (c : Char) : Bool :=
  c = ' ' || c = '\t' || c = '\n' || c = '\r' || c = '\x0b' || c = '\x0c'

/-- Translate a character through a finite table, leaving everything else
(digits, CJK, punctuation) unchanged. -/
def caseMap : List (Char × Char) → Char → Char
  | [], c => c
  | (x, y) :: t, c => if c = x then y else caseMap t c

/-- The lowercase ASCII letters and their uppercase forms. -/
def upperPairs : List (Char × Char) :=
  [('a','A'), ('b','B'), ('c','C'), ('d','D'), ('e','E'), ('f','F'), ('g','G'),
   ('h','H'), ('i','I'), ('j','J'), ('k','K'), ('l','L'), ('m','M'), ('n','N'),
   ('o','O'), ('p','P'), ('q','Q'), ('r','R'), ('s','S'), ('t','T'), ('u','U'),
   ('v','V'), ('w','W'), ('x','X'), ('y','Y'), ('z','Z')]

/-- The uppercase ASCII letters and their lowercase forms. -/
def lowerPairs : List (Char × Char) :=
  [('A','a'), ('B','b'), ('C','c'), ('D','d'), ('E','e'), ('F','f'), ('G','g'),
   ('H','h'), ('I','i'), ('J','j'), ('K','k'), ('L','l'), ('M','m'), ('N','n'),
   ('O','o'), ('P','p'), ('Q','q'), ('R','r'), ('S','s'), ('T','t'), ('U','u'),
   ('V','v'), ('W','w'), ('X','x'), ('Y','y'), ('Z','z')]

/-- ASCII uppercasing of one character, as Python `str.upper` acts on ASCII. -/
def pyUpperC (c : Char) : Char := caseMap upperPairs c

/-- ASCII lowercasing of one character, as Python `str.lower` acts on ASCII. -/
def pyLowerC (c : Char) : Char := caseMap lowerPairs c

/-- Python `str.upper` (ASCII letters; other characters, e.g. CJK, unchanged). -/
def pyUpper (s : List Char) : List Char := s.map pyUpperC

/-- Python `str.lower` (ASCII letters; other characters, e.g. CJK, unchanged). -/
def pyLower (s : List Char) : List Char := s.map pyLowerC

/-- Python `str.strip()`: drop leading and trailing whitespace. -/
def pyStrip (s : List Char) : List Char :=
  ((s.dropWhile isWS).reverse.dropWhile isWS).reverse

/-- Python `str.capitalize()`: first character uppercased, the rest lowercased. -/
def pyCapitalize (s : List Char) : List Char :=
  match s with
  | [] => []
  | c :: t => pyUpperC c :: t.map pyLowerC

/-! ### Python dictionaries as association lists -/

/-- Python `dict.get(k)`: first-match lookup (dict keys are unique). -/
def dictGet {β : Type} : List (List Char × β) → List Char → Option β
  | [], _ => none
  | (a, b) :: t, k => if a = k then some b else dictGet t k

/-- Python `dict.get(k, dflt)`. -/
def dictGetD {β : Type} (d : List (List Char × β)) (k : List Char) (dflt : β) : β :=
  (dictGet d k).getD dflt

/-- Python `d[k] = v`: replace the value at an existing key in place,
otherwise append the new pair at the end (dict insertion order). -/
def dictSet {β : Type} : List (List Char × β) → List Char → β → List (List Char × β)
  | [], k, v => [(k, v)]
  | (a, b) :: t, k, v => if a = k then (a, v) :: t else (a, b) :: dictSet t k v

/-! ### Constants of the script -/

def fn_title : List Char := "标题".data
def fn_url : List Char := "IssueURL".data
def fn_pri : List Char := "优先级".data
def fn_type : List Char := "需求类型".data
def fn_src : List Char := "bug来源（可选）".data
def fn_issue_title : List Char := "Issue标题".data

/-- `FN`: the field-name allow-list of the script. -/
def FN : List (List Char) := [fn_title, fn_url, fn_pri, fn_type, fn_src]

/-- `PRIORITY_ALIASES` of the script. -/
def PRIORITY_ALIASES : List (List Char × List Char) :=
  [("P0".data, "P0".data), ("0".data, "P0".data), ("HIGH".data, "P0".data), ("H".data, "P0".data),
   ("P1".data, "P1".data), ("1".data, "P1".data), ("MEDIUM".data, "P1".data), ("M".data, "P1".data),
   ("P2".data, "P2".data), ("2".data, "P2".data), ("LOW".data, "P2".data), ("L".data, "P2".data),
   ("P3".data, "P3".data), ("3".data, "P3".data)]

/-- `TYPE_ALIASES` of the script. -/
def TYPE_ALIASES : List (List Char × List Char) :=
  [("bug".data, "BUG".data), ("缺陷".data, "BUG".data),
   ("feature".data, "Feature".data), ("新功能".data, "Feature".data),
   ("enhancement".data, "Enhancement".data), ("优化".data, "Enhancement".data),
   ("improvement".data, "Enhancement".data)]

/-! ### Alias normalizers (`norm_pri`, `norm_type`) -/

/-- `norm_pri`: empty input yields `none`; otherwise trim, uppercase, look up
in `PRIORITY_ALIASES`, falling back to the trimmed original. -/
def norm_pri (v : List Char) : Option (List Char) :=
  if v = [] then none
  else
    match dictGet PRIORITY_ALIASES (pyUpper (pyStrip v)) with
    | some c => some c
    | none => some (pyStrip v)

/-- `norm_type`: empty input yields `none`; otherwise trim, lowercase, look up
in `TYPE_ALIASES`, falling back to the capitalized trimmed original. -/
def norm_type (v : List Char) : Option (List Char) :=
  if v = [] then none
  else
    match dictGet TYPE_ALIASES (pyLower (pyStrip v)) with
    | some c => some c
    | none => some (pyCapitalize (pyStrip v))

example : norm_pri "high".data = some "P0".data := by decide
example : norm_pri " p9 ".data = some "p9".data := by decide
example : norm_type "bug".data = some "BUG".data := by decide
example : norm_type "缺陷".data = some "BUG".data := by decide
example : norm_type "ABC".data = some "Abc".data := by decide

/-! ### Markdown section extractor (`parse_md`)

The script matches the Python regular expression
`(^|\n)#{2,3}\s*([^\n#]+?)\s*\n([\s\S]*?)(?=\n#{2,3}\s|$)` with `finditer`,
then assigns `out[k] = v` for the trimmed groups with non-empty key.
The matcher below reproduces the regex backtracking order piece by piece:
each piece returns its alternatives in regex preference order and the first
full match wins, exactly as in the Python engine. -/

/-- Alternatives of `(^|\n)`: the `^` branch (only at the very start of the
document), then the `\n` branch. -/
def tryStart (atStart : Bool) (s : List Char) : List (List Char) :=
  (if atStart then [s] else []) ++
    (match s with
     | '\n' :: t => [t]
     | _ => [])

/-- Alternatives of the greedy `#{2,3}`: three hashes first, then two. -/
def tryHashes : List Char → List (List Char)
  | '#' :: '#' :: '#' :: t => [t, '#' :: t]
  | '#' :: '#' :: t => [t]
  | _ => []

/-- Alternatives of the greedy `\s*`: longest whitespace run first. -/
def wsSplits : List Char → List (List Char)
  | [] => [[]]
  | c :: t => if isWS c then wsSplits t ++ [c :: t] else [c :: t]

/-- Alternatives of the lazy `([^\n#]+?)`: shortest capture first, each a pair
of captured text and remaining input. -/
def lazyNonHash : List Char → List (List Char × List Char)
  | [] => []
  | c :: t =>
    if c = '\n' || c = '#' then []
    else ([c], t) :: (lazyNonHash t).map (fun pr => (c :: pr.1, pr.2))

/-- Alternatives of the lazy `([\s\S]*?)`: shortest capture first. -/
def lazyAny : List Char → List (List Char × List Char)
  | [] => [([], [])]
  | c :: t => ([], c :: t) :: (lazyAny t).map (fun pr => (c :: pr.1, pr.2))

/-- The lookahead `(?=\n#{2,3}\s|$)`. -/
def lookaheadOk : List Char → Bool
  | [] => true
  | '\n' :: '#' :: '#' :: '#' :: c :: _ => isWS c
  | '\n' :: '#' :: '#' :: c :: _ => isWS c
  | _ => false

/-- Try the whole section pattern at one position; on success return the
heading capture, the body capture and the input remaining after the match. -/
def matchAt (atStart : Bool) (s : List Char) :
    Option (List Char × List Char × List Char) :=
  (tryStart atStart s).findSome? fun s1 =>
    (tryHashes s1).findSome? fun s2 =>
      (wsSplits s2).findSome? fun s3 =>
        (lazyNonHash s3).findSome? fun g2s4 =>
          (wsSplits g2s4.2).findSome? fun s5 =>
            match s5 with
            | '\n' :: s6 =>
              (lazyAny s6).findSome? fun g3s7 =>
                if lookaheadOk g3s7.2 then some (g2s4.1, g3s7.1, g3s7.2) else none
            | _ => none

/-- `finditer` scan: try each position left to right, resuming after the end
of every match.  Every step consumes at least one character, so fuel
`length + 1` never runs out. -/
def scanMd : Nat → Bool → List Char → List (List Char × List Char)
  | 0, _, _ => []
  | fuel + 1, atStart, s =>
    match matchAt atStart s with
    | some (g2, g3, rest) => (g2, g3) :: scanMd fuel false rest
    | none =>
      match s with
      | [] => []
      | _ :: t => scanMd fuel false t

/-- All regex matches of the section pattern over the document, in order. -/
def findMatches (md : List Char) : List (List Char × List Char) :=
  scanMd (md.length + 1) true md

/-- One `out[k] = v` step of `parse_md`: trim heading and body, skip empty
headings; assignment overwrites the value stored for a repeated heading. -/
def mdStep (out : List (List Char × List Char)) (m : List Char × List Char) :
    List (List Char × List Char) :=
  if pyStrip m.1 = [] then out else dictSet out (pyStrip m.1) (pyStrip m.2)

/-- `parse_md`: build the section map over all matches. -/
def parse_md (md : List Char) : List (List Char × List Char) :=
  if md = [] then [] else (findMatches md).foldl mdStep []

example :
    parse_md "## 标题\nLogin crash\n## 优先级\nP1\n## 需求类型\nbug\n".data =
      [("标题".data, "Login crash".data), ("优先级".data, "P1".data),
       ("需求类型".data, "bug".data)] := by decide

example :
    parse_md "## A\nfirst\n## A\nsecond".data = [("A".data, "second".data)] := by
  decide

example : parse_md "no headings here".data = [] := by decide
example : parse_md [] = [] := by decide

/-! ### Field builder (`build_from_issue`, `build_from_inputs`) -/

/-- The `issue` object of a GitHub event: the three fields the script reads.
`none` stands for a missing or `null` JSON member. -/
structure Issue where
  title : Option (List Char)
  body : Option (List Char)
  html_url : Option (List Char)

/-- A GitHub event payload, as far as the script reads it. -/
structure Event where
  issue : Option Issue

/-- Python `x or ""` on an optional string. -/
def orEmpty (o : Option (List Char)) : List Char := o.getD []

/-- The Python idiom `if v: fields[k] = v`: assign only a truthy value.
`none` models Python `None`, `some []` an empty string — both falsy. -/
def setIfTruthy (d : List (List Char × List Char)) (k : List Char)
    (o : Option (List Char)) : List (List Char × List Char) :=
  match o with
  | some v => if v = [] then d else dictSet d k v
  | none => d

/-- `build_from_issue`: title from the `标题` section with the issue title as
fallback, `IssueURL` from `html_url` when truthy, normalized optional fields,
then the allow-list filter. -/
def build_from_issue (evt : Event) : List (List Char × List Char) :=
  let issue := evt.issue.getD ⟨none, none, none⟩
  let md := parse_md (orEmpty issue.body)
  let title_md := pyStrip (orEmpty (dictGet md fn_title))
  let f1 := dictSet [] fn_title
    (if title_md ≠ [] then title_md else orEmpty issue.title)
  let f2 := setIfTruthy f1 fn_url issue.html_url
  let f3 := setIfTruthy f2 fn_pri (norm_pri (dictGetD md fn_pri []))
  let f4 := setIfTruthy f3 fn_type (norm_type (dictGetD md fn_type []))
  let f5 := setIfTruthy f4 fn_src (some (pyStrip (orEmpty (dictGet md fn_src))))
  f5.filter (fun kv => decide (kv.1 ∈ FN))

/-- `build_from_inputs`: title from the `标题` input with the `Issue标题`
input as fallback, `IssueURL` from the explicit url, normalized optional
fields, then the allow-list filter. -/
def build_from_inputs (inputs : List (List Char × List Char))
    (issue_url : List Char) : List (List Char × List Char) :=
  let t0 := pyStrip (dictGetD inputs fn_title [])
  let f1 := dictSet [] fn_title
    (if t0 ≠ [] then t0 else pyStrip (dictGetD inputs fn_issue_title []))
  let f2 := dictSet f1 fn_url (pyStrip issue_url)
  let f3 := setIfTruthy f2 fn_pri (norm_pri (dictGetD inputs fn_pri []))
  let f4 := setIfTruthy f3 fn_type (norm_type (dictGetD inputs fn_type []))
  let f5 := setIfTruthy f4 fn_src (some (pyStrip (orEmpty (dictGet inputs fn_src))))
  f5.filter (fun kv => decide (kv.1 ∈ FN))

example :
    build_from_issue
      ⟨some ⟨some "Fallback Title".data,
             some "## 标题\nLogin crash\n## 优先级\nP1\n## 需求类型\nbug\n".data,
             some "https://x/1".data⟩⟩ =
      [(fn_title, "Login crash".data), (fn_url, "https://x/1".data),
       (fn_pri, "P1".data), (fn_type, "BUG".data)] := by decide

example :
    build_from_issue
      ⟨some ⟨some "Fallback Title".data, some "no headings".data,
             some "https://x/1".data⟩⟩ =
      [(fn_title, "Fallback Title".data), (fn_url, "https://x/1".data)] := by
  decide

example :
    build_from_inputs [(fn_pri, "high".data)] "https://x/1".data =
      [(fn_title, []), (fn_url, "https://x/1".data), (fn_pri, "P0".data)] := by
  decide

/-! ### JSON values, record search and upsert -/

/-- JSON values as Python's `json` module yields them (numbers as integers:
the status codes at issue are integral). -/
inductive JVal where
  | jnull : JVal
  | jbool : Bool → JVal
  | jnum : Int → JVal
  | jstr : List Char → JVal
  | jarr : List JVal → JVal
  | jobj : List (List Char × JVal) → JVal

instance : Inhabited JVal := ⟨.jnull⟩

/-- Python truthiness of a JSON value. -/
def pyTruthy : JVal → Bool
  | .jnull => false
  | .jbool b => b
  | .jnum n => n ≠ 0
  | .jstr s => s ≠ []
  | .jarr xs => !xs.isEmpty
  | .jobj kvs => !kvs.isEmpty

/-- The Python exceptions the modelled code can raise. -/
inductive PyErr where
  | valueError
  | runtimeError
  | jsonError
  | attrError
  | keyError
  | typeError
  | indexError
deriving DecidableEq

/-- Python `data.get(k)`: attribute error unless `data` is a dict. -/
def jget : JVal → List Char → Except PyErr (Option JVal)
  | .jobj kvs, k => .ok (dictGet kvs k)
  | _, _ => .error .attrError

/-- Python `x or {}` applied to the result of a `.get`. -/
def orDict (o : Option JVal) : JVal :=
  match o with
  | some v => if pyTruthy v then v else .jobj []
  | none => .jobj []

/-- Python `x or []` applied to the result of a `.get`. -/
def orArr (o : Option JVal) : JVal :=
  match o with
  | some v => if pyTruthy v then v else .jarr []
  | none => .jarr []

/-- Python `items[0]["record_id"]` (reached only when `items` is truthy). -/
def firstRecordId : JVal → Except PyErr (Option JVal)
  | .jarr (x :: _) =>
    match x with
    | .jobj kvs =>
      match dictGet kvs "record_id".data with
      | some rid => .ok (some rid)
      | none => .error .keyError
    | _ => .error .typeError
  | .jarr [] => .error .indexError
  | .jobj _ => .error .keyError
  | _ => .error .typeError

/-- `search_record`: parse the search response (`none` models an unparseable
body, where `r.json()` raises), read `(data.get("data") or {}).get("items")
or []` and return the first record id, or `none` when there are no items. -/
def search_record (respBody : Option JVal) : Except PyErr (Option JVal) :=
  match respBody with
  | none => .error .jsonError
  | some data =>
    match jget data "data".data with
    | .error e => .error e
    | .ok d0 =>
      match jget (orDict d0) "items".data with
      | .error e => .error e
      | .ok it0 =>
        let items := orArr it0
        if pyTruthy items then firstRecordId items else .ok none

/-- Python `data.get("code") not in (0, None)` is `false` exactly on these
values (missing key, JSON `null`, the integer `0`, and `False`, which Python
compares equal to `0`). -/
def codeOk : Option JVal → Bool
  | none => true
  | some .jnull => true
  | some (.jnum n) => n == 0
  | some (.jbool b) => !b
  | some _ => false

/-- Response validation shared by both upsert paths: an unparseable body
raises `RuntimeError`, as does a status code outside `(0, None)`. -/
def checkResp (respBody : Option JVal) : Except PyErr JVal :=
  match respBody with
  | none => .error .runtimeError
  | some data =>
    match jget data "code".data with
    | .error e => .error e
    | .ok c => if codeOk c then .ok data else .error .runtimeError

/-- The remote calls the script can issue, in order. -/
inductive Call where
  | searchCall : List Char → Call
  | patchCall : JVal → Call
  | postCall : Call

def isPatch : Call → Bool
  | .patchCall _ => true
  | _ => false

def isPost : Call → Bool
  | .postCall => true
  | _ => false

/-- The remote store's answers for one invocation: the parsed body of the
search response and of the update/create responses (`none` = unparseable). -/
structure Remote where
  searchResp : Option JVal
  updateResp : Option JVal
  createResp : Option JVal

/-- `upsert`: require a truthy `IssueURL`, search for an existing record,
then PATCH it when one was found and POST a new record otherwise, validating
the response.  The first component lists the remote calls issued. -/
def upsert (remote : Remote) (fields : List (List Char × List Char)) :
    List Call × Except PyErr JVal :=
  match dictGet fields fn_url with
  | none => ([], .error .valueError)
  | some u =>
    if u = [] then ([], .error .valueError)
    else
      match search_record remote.searchResp with
      | .error e => ([.searchCall u], .error e)
      | .ok (some rid) =>
        if pyTruthy rid then
          ([.searchCall u, .patchCall rid], checkResp remote.updateResp)
        else
          ([.searchCall u, .postCall], checkResp remote.createResp)
      | .ok none => ([.searchCall u, .postCall], checkResp remote.createResp)

/-! ### Shared concrete data for witnesses and counterexamples -/

/-- A search response with one matching record. -/
def foundResp : JVal :=
  .jobj [("data".data,
          .jobj [("items".data,
                  .jarr [.jobj [("record_id".data, .jstr "recXYZ".data)]])])]

/-- A search response with zero matching records. -/
def emptyResp : JVal := .jobj [("data".data, .jobj [("items".data, .jarr [])])]

/-- A successful write response. -/
def okResp : JVal := .jobj [("code".data, .jnum 0)]

/-- An error response: non-zero status code, no `data` member. -/
def errResp : JVal :=
  .jobj [("code".data, .jnum 1254), ("msg".data, .jstr "forbidden".data)]

def remFound : Remote := ⟨some foundResp, some okResp, some okResp⟩

def remEmpty : Remote := ⟨some emptyResp, some okResp, some okResp⟩

def remErr : Remote := ⟨some errResp, some okResp, some okResp⟩

/-- A field set with a non-empty `IssueURL`. -/
def fieldsEx : List (List Char × List Char) :=
  [(fn_title, "T".data), (fn_url, "https://x/1".data)]

/-! ### Helper lemmas -/

lemma codeOk_iff (o : Option JVal) :
    codeOk o = true ↔
      (o = none ∨ o = some .jnull ∨ o = some (.jnum 0) ∨
       o = some (.jbool false)) := by
  cases o with
  | none => simp [codeOk]
  | some v => cases v <;> simp [codeOk]

lemma caseMap_congr {α : Type} (f : Char → α) (tbl : List (Char × Char))
    (h : ∀ p ∈ tbl, f p.2 = f p.1) (c : Char) : f (caseMap tbl c) = f c := by
  induction tbl with
  | nil => rfl
  | cons p t ih =>
    obtain ⟨x, y⟩ := p
    by_cases hc : c = x
    · subst hc
      simpa [caseMap] using h (c, y) (List.mem_cons_self _ _)
    · simp only [caseMap, if_neg hc]
      exact ih (fun q hq => h q (List.mem_cons_of_mem _ hq))

lemma isWS_pyUpperC (c : Char) : isWS (pyUpperC c) = isWS c :=
  caseMap_congr isWS upperPairs (by decide) c

lemma isWS_pyLowerC (c : Char) : isWS (pyLowerC c) = isWS c :=
  caseMap_congr isWS lowerPairs (by decide) c

lemma pyLowerC_pyUpperC (c : Char) : pyLowerC (pyUpperC c) = pyLowerC c :=
  caseMap_congr pyLowerC upperPairs (by decide) c

lemma pyLowerC_pyLowerC (c : Char) : pyLowerC (pyLowerC c) = pyLowerC c :=
  caseMap_congr pyLowerC lowerPairs (by decide) c

lemma pyUpperC_pyUpperC (c : Char) : pyUpperC (pyUpperC c) = pyUpperC c :=
  caseMap_congr pyUpperC upperPairs (by decide) c

lemma head?_dropWhile (p : Char → Bool) (l : List Char) (c : Char)
    (h : (l.dropWhile p).head? = some c) : p c = false := by
  induction l with
  | nil => simp [List.dropWhile] at h
  | cons a t ih =>
    rw [List.dropWhile_cons] at h
    by_cases hp : p a
    · rw [if_pos hp] at h
      exact ih h
    · rw [if_neg hp] at h
      simp only [List.head?_cons, Option.some.injEq] at h
      subst h
      simpa using hp

lemma getLast?_dropWhile (p : Char → Bool) (l : List Char) (c : Char)
    (h : (l.dropWhile p).getLast? = some c) : l.getLast? = some c := by
  induction l with
  | nil => simp [List.dropWhile] at h
  | cons a t ih =>
    rw [List.dropWhile_cons] at h
    by_cases hp : p a
    · rw [if_pos hp] at h
      have ht := ih h
      cases t with
      | nil => simp at ht
      | cons b t2 => rw [List.getLast?_cons_cons]; exact ht
    · rwa [if_neg hp] at h

lemma dropWhile_eq_self_of_head (p : Char → Bool) (l : List Char)
    (h : ∀ c, l.head? = some c → p c = false) : l.dropWhile p = l := by
  cases l with
  | nil => rfl
  | cons a t => rw [List.dropWhile_cons, h a rfl]; simp

lemma pyStrip_eq_self (l : List Char)
    (h1 : ∀ c, l.head? = some c → isWS c = false)
    (h2 : ∀ c, l.getLast? = some c → isWS c = false) : pyStrip l = l := by
  unfold pyStrip
  rw [dropWhile_eq_self_of_head _ _ h1,
      dropWhile_eq_self_of_head _ _
        (fun c hc => h2 c (by rwa [List.head?_reverse] at hc)),
      List.reverse_reverse]

lemma pyStrip_head (l : List Char) (c : Char)
    (h : (pyStrip l).head? = some c) : isWS c = false := by
  unfold pyStrip at h
  rw [List.head?_reverse] at h
  have h2 := getLast?_dropWhile _ _ _ h
  rw [List.getLast?_reverse] at h2
  exact head?_dropWhile _ _ _ h2

lemma pyStrip_last (l : List Char) (c : Char)
    (h : (pyStrip l).getLast? = some c) : isWS c = false := by
  unfold pyStrip at h
  rw [List.getLast?_reverse] at h
  exact head?_dropWhile _ _ _ h

lemma pyStrip_idem (l : List Char) : pyStrip (pyStrip l) = pyStrip l :=
  pyStrip_eq_self _ (pyStrip_head l) (pyStrip_last l)

lemma pyLower_pyCapitalize (x : List Char) :
    pyLower (pyCapitalize x) = pyLower x := by
  cases x with
  | nil => rfl
  | cons c t =>
    simp only [pyCapitalize, pyLower, List.map_cons, List.map_map,
      pyLowerC_pyUpperC]
    exact congrArg _ (List.map_congr_left (fun a _ => pyLowerC_pyLowerC a))

lemma pyCapitalize_pyCapitalize (x : List Char) :
    pyCapitalize (pyCapitalize x) = pyCapitalize x := by
  cases x with
  | nil => rfl
  | cons c t =>
    simp only [pyCapitalize, List.map_map, pyUpperC_pyUpperC]
    exact congrArg _ (List.map_congr_left (fun a _ => pyLowerC_pyLowerC a))

lemma pyStrip_pyCapitalize (x : List Char) (hx : pyStrip x = x) :
    pyStrip (pyCapitalize x) = pyCapitalize x := by
  cases x with
  | nil => rfl
  | cons c t =>
    have hcap : pyCapitalize (c :: t) = pyUpperC c :: t.map pyLowerC := rfl
    apply pyStrip_eq_self
    · intro d hd
      rw [hcap, List.head?_cons, Option.some.injEq] at hd
      subst hd
      rw [isWS_pyUpperC]
      exact pyStrip_head (c :: t) c (by rw [hx]; rfl)
    · intro d hd
      rw [hcap] at hd
      cases t with
      | nil =>
        rw [List.map_nil, List.getLast?_singleton, Option.some.injEq] at hd
        subst hd
        rw [isWS_pyUpperC]
        exact pyStrip_last [c] c (by rw [hx]; exact List.getLast?_singleton c)
      | cons b t2 =>
        rw [List.map_cons, List.getLast?_cons_cons,
          ← List.map_cons pyLowerC b t2, List.getLast?_map] at hd
        cases he : (b :: t2).getLast? with
        | none => rw [he] at hd; exact Option.noConfusion hd
        | some e =>
          rw [he] at hd
          simp only [Option.map_some', Option.some.injEq] at hd
          subst hd
          rw [isWS_pyLowerC]
          exact pyStrip_last (c :: b :: t2) e
            (by rw [hx, List.getLast?_cons_cons]; exact he)

lemma dictGet_dictSet_self {β : Type} (d : List (List Char × β))
    (k : List Char) (v : β) : dictGet (dictSet d k v) k = some v := by
  induction d with
  | nil => simp [dictSet, dictGet]
  | cons a t ih =>
    obtain ⟨a1, a2⟩ := a
    by_cases h : a1 = k
    · simp [dictSet, dictGet, h]
    · simp [dictSet, dictGet, h, ih]

lemma dictGet_dictSet_ne {β : Type} (d : List (List Char × β))
    (k k' : List Char) (v : β) (h : k' ≠ k) :
    dictGet (dictSet d k v) k' = dictGet d k' := by
  induction d with
  | nil => simp [dictSet, dictGet, Ne.symm h]
  | cons a t ih =>
    obtain ⟨a1, a2⟩ := a
    by_cases h1 : a1 = k
    · subst h1
      simp [dictSet, dictGet, Ne.symm h]
    · simp [dictSet, dictGet, h1, ih]

lemma dictGet_setIfTruthy_ne (d : List (List Char × List Char))
    (k k' : List Char) (o : Option (List Char)) (h : k' ≠ k) :
    dictGet (setIfTruthy d k o) k' = dictGet d k' := by
  cases o with
  | none => rfl
  | some v =>
    by_cases hv : v = []
    · simp [setIfTruthy, hv]
    · simp [setIfTruthy, hv, dictGet_dictSet_ne d k k' v h]

lemma dictGet_setIfTruthy_not_empty (d : List (List Char × List Char))
    (k : List Char) (o : Option (List Char))
    (h : dictGet d k ≠ some []) :
    dictGet (setIfTruthy d k o) k ≠ some [] := by
  cases o with
  | none => exact h
  | some v =>
    by_cases hv : v = []
    · simpa [setIfTruthy, hv] using h
    · simp [setIfTruthy, hv, dictGet_dictSet_self d k v]

lemma dictGet_filter_fn (d : List (List Char × List Char)) (k : List Char)
    (hk : k ∈ FN) :
    dictGet (d.filter (fun kv => decide (kv.1 ∈ FN))) k = dictGet d k := by
  induction d with
  | nil => rfl
  | cons a t ih =>
    obtain ⟨a1, a2⟩ := a
    by_cases h1 : a1 ∈ FN
    · rw [List.filter_cons_of_pos (by simpa using h1)]
      by_cases h2 : a1 = k
      · simp [dictGet, h2]
      · simp [dictGet, h2, ih]
    · rw [List.filter_cons_of_neg (by simpa using h1)]
      have h2 : a1 ≠ k := fun e => h1 (e ▸ hk)
      simp [dictGet, h2, ih]

lemma keys_filter_fn (d : List (List Char × List Char)) (k : List Char)
    (h : k ∈ (d.filter (fun kv => decide (kv.1 ∈ FN))).map Prod.fst) :
    k ∈ FN := by
  rcases List.mem_map.mp h with ⟨kv, hkv, rfl⟩
  exact of_decide_eq_true (List.mem_filter.mp hkv).2

lemma dictGet_mem {β : Type} (d : List (List Char × β)) (k : List Char) (v : β)
    (h : dictGet d k = some v) : (k, v) ∈ d := by
  induction d with
  | nil => simp [dictGet] at h
  | cons a t ih =>
    obtain ⟨a1, a2⟩ := a
    by_cases h1 : a1 = k
    · subst h1
      simp [dictGet] at h
      subst h
      exact List.mem_cons_self _ _
    · simp only [dictGet, if_neg h1] at h
      exact List.mem_cons_of_mem _ (ih h)

lemma norm_pri_alias_fixed (k t : List Char)
    (h : dictGet PRIORITY_ALIASES k = some t) : norm_pri t = some t := by
  have hv : t ∈ PRIORITY_ALIASES.map Prod.snd :=
    List.mem_map_of_mem Prod.snd (dictGet_mem _ _ _ h)
  fin_cases hv <;> decide

lemma norm_type_alias_fixed (k t : List Char)
    (h : dictGet TYPE_ALIASES k = some t) : norm_type t = some t := by
  have hv : t ∈ TYPE_ALIASES.map Prod.snd :=
    List.mem_map_of_mem Prod.snd (dictGet_mem _ _ _ h)
  fin_cases hv <;> decide

/-- The spec's from-event scenario input, reused by several witnesses. -/
def evtEx : Event :=
  ⟨some ⟨some "Fallback Title".data,
         some "## 标题\nLogin crash\n## 优先级\nP1\n## 需求类型\nbug\n".data,
         some "https://x/1".data⟩⟩

/-! ### Claim C1 -/

/-- C1: for every field set carrying a non-empty `IssueURL`, when the record
search returns an identifier the upsert issues exactly one PATCH and no POST,
and when the search returns no identifier it issues exactly one POST and no
PATCH. -/
theorem upsert_exactly_one_write (remote : Remote)
    (fields : List (List Char × List Char)) (u : List Char)
    (hu : dictGet fields fn_url = some u) (hne : u ≠ []) :
    (∀ rid, search_record remote.searchResp = .ok (some rid) →
      pyTruthy rid = true →
      (upsert remote fields).1.countP isPatch = 1 ∧
        (upsert remote fields).1.countP isPost = 0) ∧
    (search_record remote.searchResp = .ok none →
      (upsert remote fields).1.countP isPost = 1 ∧
        (upsert remote fields).1.countP isPatch = 0) := by
  constructor
  · intro rid h ht
    simp [upsert, hu, hne, h, ht, List.countP_cons, isPatch, isPost]
  · intro h
    simp [upsert, hu, hne, h, List.countP_cons, isPatch, isPost]

/-- Witness for C1: the PATCH branch on a remote that finds a record and the
POST branch on a remote that finds none, both at a concrete field set. -/
theorem upsert_exactly_one_write_witness :
    ((upsert remFound fieldsEx).1.countP isPatch = 1 ∧
      (upsert remFound fieldsEx).1.countP isPost = 0) ∧
    ((upsert remEmpty fieldsEx).1.countP isPost = 1 ∧
      (upsert remEmpty fieldsEx).1.countP isPatch = 0) :=
  ⟨(upsert_exactly_one_write remFound fieldsEx "https://x/1".data rfl
      (by decide)).1 (.jstr "recXYZ".data) rfl rfl,
   (upsert_exactly_one_write remEmpty fieldsEx "https://x/1".data rfl
      (by decide)).2 rfl⟩

/-! ### Claim C2 -/

/-- C2: when the field set has no `IssueURL` key, `upsert` raises the
key-missing `ValueError` and issues no remote call at all. -/
theorem upsert_missing_key_aborts (remote : Remote)
    (fields : List (List Char × List Char))
    (h : dictGet fields fn_url = none) :
    upsert remote fields = ([], .error .valueError) := by
  simp [upsert, h]

/-- Witness for C2: a field set holding only a title. -/
theorem upsert_missing_key_aborts_witness :
    upsert remFound [(fn_title, "T".data)] = ([], .error .valueError) :=
  upsert_missing_key_aborts remFound [(fn_title, "T".data)] (by decide)

/-! ### Claim C3 -/

/-- C3 counterexample: a parseable search response with non-zero status code
1254 is treated as "not found" and the upsert proceeds to a successful POST —
the non-zero code does not propagate as a query failure. -/
theorem search_record_nonzero_code_counterexample :
    search_record (some errResp) = .ok none ∧
    (upsert remErr fieldsEx).1 =
      [.searchCall "https://x/1".data, .postCall] ∧
    (upsert remErr fieldsEx).2 = .ok okResp :=
  ⟨rfl, rfl, rfl⟩

/-- C3 amended: the record locator never inspects the status code — its
result depends only on the `data` member of a parseable response, a response
without usable items is treated as "not found" whatever its code, and only an
unparseable body propagates as a failure. -/
theorem search_record_ignores_code :
    search_record none = .error .jsonError ∧
    (∀ kvs kvs' : List (List Char × JVal),
        dictGet kvs "data".data = dictGet kvs' "data".data →
        search_record (some (.jobj kvs)) = search_record (some (.jobj kvs'))) ∧
    (∀ kvs : List (List Char × JVal), dictGet kvs "data".data = none →
        search_record (some (.jobj kvs)) = .ok none) := by
  refine ⟨rfl, ?_, ?_⟩
  · intro kvs kvs' h
    simp [search_record, jget, h]
  · intro kvs h
    simp [search_record, jget, h, orDict, orArr, pyTruthy, dictGet]

/-- Witness for C3 amended: a response whose only member is a non-zero code
searches identically to the empty response, and yields "not found". -/
theorem search_record_ignores_code_witness :
    search_record (some (.jobj [("code".data, .jnum 77)])) =
      search_record (some (.jobj [])) ∧
    search_record (some (.jobj [("code".data, .jnum 77)])) = .ok none :=
  ⟨search_record_ignores_code.2.1 [("code".data, .jnum 77)] [] rfl,
   search_record_ignores_code.2.2 [("code".data, .jnum 77)] rfl⟩

/-! ### Claim C5 -/

/-- C5: upsert response validation succeeds exactly on a parseable object
whose status code is missing, `null`, the integer `0`, or `False` (which
Python compares equal to `0`); every other body — non-zero code,
unrecognizable code, non-object body, unparseable body — fails. -/
theorem upsert_validation_iff (body : Option JVal) :
    ((∃ d, checkResp body = .ok d) ↔
      ∃ kvs, body = some (.jobj kvs) ∧
        (dictGet kvs "code".data = none ∨
         dictGet kvs "code".data = some .jnull ∨
         dictGet kvs "code".data = some (.jnum 0) ∨
         dictGet kvs "code".data = some (.jbool false))) ∧
    checkResp none = .error .runtimeError := by
  refine ⟨?_, rfl⟩
  cases body with
  | none => simp [checkResp]
  | some v =>
    cases v with
    | jobj kvs =>
      by_cases h : codeOk (dictGet kvs "code".data) = true
      · simp only [checkResp, jget, h, if_true]
        constructor
        · intro _
          exact ⟨kvs, rfl, (codeOk_iff _).mp h⟩
        · intro _
          exact ⟨.jobj kvs, rfl⟩
      · simp only [checkResp, jget, h, if_false]
        constructor
        · rintro ⟨d, hd⟩
          exact Except.noConfusion hd
        · rintro ⟨kvs', hk, hdisj⟩
          cases hk
          exact (h ((codeOk_iff _).mpr hdisj)).elim
    | jnull => simp [checkResp, jget]
    | jbool b => simp [checkResp, jget]
    | jnum n => simp [checkResp, jget]
    | jstr s => simp [checkResp, jget]
    | jarr l => simp [checkResp, jget]

/-- Witness for C5: the common zero-code success and the non-zero-code
failure, at concrete bodies. -/
theorem upsert_validation_iff_witness :
    (∃ d, checkResp (some okResp) = .ok d) ∧
    checkResp none = .error .runtimeError :=
  ⟨(upsert_validation_iff (some okResp)).1.mpr
      ⟨[("code".data, .jnum 0)], rfl, Or.inr (Or.inr (Or.inl rfl))⟩,
   (upsert_validation_iff none).2⟩

/-! ### Claim C4 -/

/-- C4: in both modes the key set of the field builder's output is a subset
of the five-element allow-list `FN`, for every input. -/
theorem field_builder_keys_subset :
    (∀ (evt : Event) (k : List Char),
        k ∈ (build_from_issue evt).map Prod.fst → k ∈ FN) ∧
    (∀ (inputs : List (List Char × List Char)) (url k : List Char),
        k ∈ (build_from_inputs inputs url).map Prod.fst → k ∈ FN) := by
  constructor
  · intro evt k h
    exact keys_filter_fn _ k h
  · intro inputs url k h
    exact keys_filter_fn _ k h

/-- Witness for C4: both modes at concrete inputs, at keys the outputs do
contain. -/
theorem field_builder_keys_subset_witness :
    fn_title ∈ FN ∧ fn_url ∈ FN :=
  ⟨field_builder_keys_subset.1 evtEx fn_title (by decide),
   field_builder_keys_subset.2 [(fn_pri, "high".data)] "https://x/1".data fn_url
     (by decide)⟩

/-! ### Claim C10 -/

/-- C10: the title key is present in the output of both builder modes for
every input (even with an empty resolved value), while the priority, type and
bug-source keys never carry an empty value — they are omitted instead. -/
theorem title_always_present :
    (∀ evt : Event, ∃ v, dictGet (build_from_issue evt) fn_title = some v) ∧
    (∀ (inputs : List (List Char × List Char)) (url : List Char),
        ∃ v, dictGet (build_from_inputs inputs url) fn_title = some v) ∧
    (∀ evt : Event,
        dictGet (build_from_issue evt) fn_pri ≠ some [] ∧
        dictGet (build_from_issue evt) fn_type ≠ some [] ∧
        dictGet (build_from_issue evt) fn_src ≠ some []) ∧
    (∀ (inputs : List (List Char × List Char)) (url : List Char),
        dictGet (build_from_inputs inputs url) fn_pri ≠ some [] ∧
        dictGet (build_from_inputs inputs url) fn_type ≠ some [] ∧
        dictGet (build_from_inputs inputs url) fn_src ≠ some []) := by
  refine ⟨?_, ?_, ?_, ?_⟩
  · intro evt
    simp only [build_from_issue]
    rw [dictGet_filter_fn _ _ (by decide),
        dictGet_setIfTruthy_ne _ _ _ _ (by decide),
        dictGet_setIfTruthy_ne _ _ _ _ (by decide),
        dictGet_setIfTruthy_ne _ _ _ _ (by decide),
        dictGet_setIfTruthy_ne _ _ _ _ (by decide)]
    exact ⟨_, dictGet_dictSet_self _ _ _⟩
  · intro inputs url
    simp only [build_from_inputs]
    rw [dictGet_filter_fn _ _ (by decide),
        dictGet_setIfTruthy_ne _ _ _ _ (by decide),
        dictGet_setIfTruthy_ne _ _ _ _ (by decide),
        dictGet_setIfTruthy_ne _ _ _ _ (by decide),
        dictGet_dictSet_ne _ _ _ _ (by decide)]
    exact ⟨_, dictGet_dictSet_self _ _ _⟩
  · intro evt
    simp only [build_from_issue]
    refine ⟨?_, ?_, ?_⟩
    · rw [dictGet_filter_fn _ _ (by decide),
          dictGet_setIfTruthy_ne _ _ _ _ (by decide),
          dictGet_setIfTruthy_ne _ _ _ _ (by decide)]
      apply dictGet_setIfTruthy_not_empty
      rw [dictGet_setIfTruthy_ne _ _ _ _ (by decide),
          dictGet_dictSet_ne _ _ _ _ (by decide)]
      simp [dictGet]
    · rw [dictGet_filter_fn _ _ (by decide),
          dictGet_setIfTruthy_ne _ _ _ _ (by decide)]
      apply dictGet_setIfTruthy_not_empty
      rw [dictGet_setIfTruthy_ne _ _ _ _ (by decide),
          dictGet_setIfTruthy_ne _ _ _ _ (by decide),
          dictGet_dictSet_ne _ _ _ _ (by decide)]
      simp [dictGet]
    · rw [dictGet_filter_fn _ _ (by decide)]
      apply dictGet_setIfTruthy_not_empty
      rw [dictGet_setIfTruthy_ne _ _ _ _ (by decide),
          dictGet_setIfTruthy_ne _ _ _ _ (by decide),
          dictGet_setIfTruthy_ne _ _ _ _ (by decide),
          dictGet_dictSet_ne _ _ _ _ (by decide)]
      simp [dictGet]
  · intro inputs url
    simp only [build_from_inputs]
    refine ⟨?_, ?_, ?_⟩
    · rw [dictGet_filter_fn _ _ (by decide),
          dictGet_setIfTruthy_ne _ _ _ _ (by decide),
          dictGet_setIfTruthy_ne _ _ _ _ (by decide)]
      apply dictGet_setIfTruthy_not_empty
      rw [dictGet_dictSet_ne _ _ _ _ (by decide),
          dictGet_dictSet_ne _ _ _ _ (by decide)]
      simp [dictGet]
    · rw [dictGet_filter_fn _ _ (by decide),
          dictGet_setIfTruthy_ne _ _ _ _ (by decide)]
      apply dictGet_setIfTruthy_not_empty
      rw [dictGet_setIfTruthy_ne _ _ _ _ (by decide),
          dictGet_dictSet_ne _ _ _ _ (by decide),
          dictGet_dictSet_ne _ _ _ _ (by decide)]
      simp [dictGet]
    · rw [dictGet_filter_fn _ _ (by decide)]
      apply dictGet_setIfTruthy_not_empty
      rw [dictGet_setIfTruthy_ne _ _ _ _ (by decide),
          dictGet_setIfTruthy_ne _ _ _ _ (by decide),
          dictGet_dictSet_ne _ _ _ _ (by decide),
          dictGet_dictSet_ne _ _ _ _ (by decide)]
      simp [dictGet]

/-- Witness for C10: both modes at concrete inputs. -/
theorem title_always_present_witness :
    (∃ v, dictGet (build_from_issue evtEx) fn_title = some v) ∧
    (∃ v, dictGet (build_from_inputs [] []) fn_title = some v) ∧
    dictGet (build_from_issue evtEx) fn_pri ≠ some [] ∧
    dictGet (build_from_inputs [] []) fn_src ≠ some [] :=
  ⟨title_always_present.1 evtEx,
   title_always_present.2.1 [] [],
   (title_always_present.2.2.1 evtEx).1,
   (title_always_present.2.2.2 [] []).2.2⟩

/-! ### Claim C6 -/

/-- C6 counterexample: on the unknown token `ABC`, `norm_type` returns `Abc`
— Python `str.capitalize` lowercases the remaining characters — not the
claimed `ABC` with only the first character capitalized and the rest
unchanged. -/
theorem norm_type_capitalize_counterexample :
    norm_type "ABC".data = some "Abc".data ∧
    norm_type "ABC".data ≠ some "ABC".data :=
  ⟨by decide, by decide⟩

/-- C6 amended: known tokens map case-insensitively to their canonical
values; any other non-empty input returns the trimmed input with the first
character uppercased and all remaining characters lowercased
(`str.capitalize`). -/
theorem norm_type_amended (s : List Char) (h : s ≠ []) :
    (dictGet TYPE_ALIASES (pyLower (pyStrip s)) = none →
        norm_type s = some (pyCapitalize (pyStrip s))) ∧
    ((pyLower (pyStrip s) = "bug".data ∨ pyLower (pyStrip s) = "缺陷".data) →
        norm_type s = some "BUG".data) ∧
    ((pyLower (pyStrip s) = "feature".data ∨
        pyLower (pyStrip s) = "新功能".data) →
        norm_type s = some "Feature".data) ∧
    ((pyLower (pyStrip s) = "enhancement".data ∨
        pyLower (pyStrip s) = "优化".data ∨
        pyLower (pyStrip s) = "improvement".data) →
        norm_type s = some "Enhancement".data) := by
  refine ⟨?_, ?_, ?_, ?_⟩
  · intro hl
    simp only [norm_type, if_neg h, hl]
  · rintro (hl | hl) <;> · simp only [norm_type, if_neg h, hl]; rfl
  · rintro (hl | hl) <;> · simp only [norm_type, if_neg h, hl]; rfl
  · rintro (hl | hl | hl) <;> · simp only [norm_type, if_neg h, hl]; rfl

/-- Witness for C6 amended: an unknown token and a cased known token. -/
theorem norm_type_amended_witness :
    norm_type "XYz".data = some (pyCapitalize (pyStrip "XYz".data)) ∧
    norm_type " Bug ".data = some "BUG".data :=
  ⟨(norm_type_amended "XYz".data (by decide)).1 (by decide),
   (norm_type_amended " Bug ".data (by decide)).2.1 (Or.inl (by decide))⟩

/-! ### Claim C8 -/

/-- C8 counterexample: on the whitespace-only input `" "`, `norm_pri` and
`norm_type` return the empty string, which renormalizes to absent (`none`),
so normalization composed with itself differs from one application. -/
theorem norm_idempotent_counterexample :
    norm_pri " ".data = some [] ∧ norm_pri [] = none ∧
    (norm_pri " ".data).bind norm_pri ≠ norm_pri " ".data ∧
    norm_type " ".data = some [] ∧ norm_type [] = none ∧
    (norm_type " ".data).bind norm_type ≠ norm_type " ".data :=
  ⟨by decide, by decide, by decide, by decide, by decide, by decide⟩

/-- C8 amended: whenever normalization returns a non-empty value —
canonical alias value or trimmed passthrough — renormalizing that value
returns it unchanged; only the empty result of a whitespace-only input
renormalizes to absent instead of to itself. -/
theorem norm_idempotent_amended (s t : List Char) :
    (norm_pri s = some t → t ≠ [] → norm_pri t = some t) ∧
    (norm_type s = some t → t ≠ [] → norm_type t = some t) := by
  constructor
  · intro h hne
    by_cases hs : s = []
    · rw [norm_pri, if_pos hs] at h
      exact Option.noConfusion h
    · rw [norm_pri, if_neg hs] at h
      cases hl : dictGet PRIORITY_ALIASES (pyUpper (pyStrip s)) with
      | some c =>
        rw [hl] at h
        injection h with h
        subst h
        exact norm_pri_alias_fixed _ _ hl
      | none =>
        rw [hl] at h
        injection h with h
        subst h
        rw [norm_pri, if_neg hne, pyStrip_idem, hl]
  · intro h hne
    by_cases hs : s = []
    · rw [norm_type, if_pos hs] at h
      exact Option.noConfusion h
    · rw [norm_type, if_neg hs] at h
      cases hl : dictGet TYPE_ALIASES (pyLower (pyStrip s)) with
      | some c =>
        rw [hl] at h
        injection h with h
        subst h
        exact norm_type_alias_fixed _ _ hl
      | none =>
        rw [hl] at h
        injection h with h
        subst h
        rw [norm_type, if_neg hne,
          pyStrip_pyCapitalize (pyStrip s) (pyStrip_idem s),
          pyLower_pyCapitalize, pyCapitalize_pyCapitalize, hl]

/-- Witness for C8 amended: a passthrough priority token and a capitalized
passthrough type token, renormalized unchanged. -/
theorem norm_idempotent_amended_witness :
    norm_pri "p9".data = some "p9".data ∧
    norm_type "Xy".data = some "Xy".data :=
  ⟨(norm_idempotent_amended " p9 ".data "p9".data).1 (by decide) (by decide),
   (norm_idempotent_amended " xy ".data "Xy".data).2 (by decide) (by decide)⟩

/-! ### Claim C9 -/

lemma getLast?_cons_of_some {α : Type} (x : α) (l : List α) (v : α)
    (h : l.getLast? = some v) : (x :: l).getLast? = some v := by
  cases l with
  | nil => exact Option.noConfusion h
  | cons b t => rw [List.getLast?_cons_cons]; exact h

lemma foldl_mdStep_last (ms : List (List Char × List Char))
    (out : List (List Char × List Char)) (k : List Char) (hk : k ≠ []) :
    dictGet (ms.foldl mdStep out) k =
      match (ms.filterMap (fun m =>
          if pyStrip m.1 = k then some (pyStrip m.2) else none)).getLast? with
      | some v => some v
      | none => dictGet out k := by
  induction ms generalizing out with
  | nil => rfl
  | cons m ms ih =>
    rw [List.foldl_cons, ih (mdStep out m), List.filterMap_cons]
    by_cases hm : pyStrip m.1 = k
    · rw [if_pos hm]
      cases hrest : (ms.filterMap (fun m =>
          if pyStrip m.1 = k then some (pyStrip m.2) else none)).getLast? with
      | some v =>
        rw [getLast?_cons_of_some _ _ _ hrest]
      | none =>
        rw [List.getLast?_eq_none_iff.mp hrest, List.getLast?_singleton]
        show dictGet (mdStep out m) k = some (pyStrip m.2)
        unfold mdStep
        rw [hm, if_neg hk, dictGet_dictSet_self]
    · rw [if_neg hm]
      have hstep : dictGet (mdStep out m) k = dictGet out k := by
        unfold mdStep
        by_cases he : pyStrip m.1 = []
        · rw [if_pos he]
        · rw [if_neg he]
          exact dictGet_dictSet_ne _ _ _ _ (fun e => hm e.symm)
      rw [hstep]

/-- C9: for every document, a non-empty trimmed heading is mapped by
`parse_md` to the trimmed body of its last matched occurrence — earlier
bodies of a repeated heading are discarded. -/
theorem parse_md_last_occurrence (md : List Char) (k : List Char)
    (hk : k ≠ []) :
    dictGet (parse_md md) k =
      ((findMatches md).filterMap (fun m =>
          if pyStrip m.1 = k then some (pyStrip m.2) else none)).getLast? := by
  by_cases hmd : md = []
  · subst hmd
    rfl
  · rw [parse_md, if_neg hmd, foldl_mdStep_last _ _ _ hk]
    cases ((findMatches md).filterMap (fun m =>
        if pyStrip m.1 = k then some (pyStrip m.2) else none)).getLast? with
    | some v => rfl
    | none => rfl

/-- A document whose `A` section occurs twice. -/
def docEx : List Char := "## A\nfirst\n## A\nsecond".data

/-- Witness for C9: on the duplicate-heading document, `parse_md` stores the
body of the second occurrence. -/
theorem parse_md_last_occurrence_witness :
    dictGet (parse_md docEx) "A".data =
      ((findMatches docEx).filterMap (fun m =>
          if pyStrip m.1 = "A".data then some (pyStrip m.2) else none)).getLast? ∧
    dictGet (parse_md docEx) "A".data = some "second".data :=
  ⟨parse_md_last_occurrence docEx "A".data (by decide), by decide⟩

/-! ### Claim C7 -/

/-- C7 counterexample: with input map `{优先级: "high"}` and an explicit url,
the output is not the input map plus `IssueURL`: the priority value is
normalized to `P0` and an empty title key is added. -/
theorem build_from_inputs_roundtrip_counterexample :
    build_from_inputs [(fn_pri, "high".data)] "https://x/1".data =
      [(fn_title, []), (fn_url, "https://x/1".data), (fn_pri, "P0".data)] ∧
    dictGet (build_from_inputs [(fn_pri, "high".data)] "https://x/1".data)
      fn_pri ≠ some "high".data ∧
    dictGet (build_from_inputs [(fn_pri, "high".data)] "https://x/1".data)
      fn_title ≠ none :=
  ⟨by decide, by decide, by decide⟩

/-- One optional entry of an input map. -/
def optEntry (k : List Char) : Option (List Char) →
    List (List Char × List Char)
  | some v => [(k, v)]
  | none => []

/-- C7 amended: if the input map holds the title key with a non-empty trimmed
value and, optionally, priority / requirement-type / bug-source values that
are non-empty fixed points of their normalization (trimming for bug-source),
and the explicit url is trimmed, then the output equals the input map with
`IssueURL` mapped to the explicit url. -/
theorem build_from_inputs_roundtrip_amended
    (t url : List Char) (p ty bs : Option (List Char))
    (ht : pyStrip t = t) (htne : t ≠ [])
    (hurl : pyStrip url = url)
    (hp : ∀ x, p = some x → norm_pri x = some x ∧ x ≠ [])
    (hty : ∀ x, ty = some x → norm_type x = some x ∧ x ≠ [])
    (hbs : ∀ x, bs = some x → pyStrip x = x ∧ x ≠ []) :
    build_from_inputs
        ((fn_title, t) ::
          (optEntry fn_pri p ++ optEntry fn_type ty ++ optEntry fn_src bs))
        url =
      (fn_title, t) :: (fn_url, url) ::
        (optEntry fn_pri p ++ optEntry fn_type ty ++ optEntry fn_src bs) := by
  have hnp : norm_pri ([] : List Char) = none := rfl
  have hnt : norm_type ([] : List Char) = none := rfl
  rcases p with _ | x
  · rcases ty with _ | y
    · rcases bs with _ | b
      · simp +decide [build_from_inputs, optEntry, dictGetD, dictGet, dictSet,
          setIfTruthy, orEmpty, ht, htne, hurl, hnp, hnt]
      · obtain ⟨hb1, hb2⟩ := hbs b rfl
        simp +decide [build_from_inputs, optEntry, dictGetD, dictGet, dictSet,
          setIfTruthy, orEmpty, ht, htne, hurl, hnp, hnt, hb1, hb2]
    · obtain ⟨hy1, hy2⟩ := hty y rfl
      rcases bs with _ | b
      · simp +decide [build_from_inputs, optEntry, dictGetD, dictGet, dictSet,
          setIfTruthy, orEmpty, ht, htne, hurl, hnp, hnt, hy1, hy2]
      · obtain ⟨hb1, hb2⟩ := hbs b rfl
        simp +decide [build_from_inputs, optEntry, dictGetD, dictGet, dictSet,
          setIfTruthy, orEmpty, ht, htne, hurl, hnp, hnt, hy1, hy2, hb1, hb2]
  · obtain ⟨hx1, hx2⟩ := hp x rfl
    rcases ty with _ | y
    · rcases bs with _ | b
      · simp +decide [build_from_inputs, optEntry, dictGetD, dictGet, dictSet,
          setIfTruthy, orEmpty, ht, htne, hurl, hnp, hnt, hx1, hx2]
      · obtain ⟨hb1, hb2⟩ := hbs b rfl
        simp +decide [build_from_inputs, optEntry, dictGetD, dictGet, dictSet,
          setIfTruthy, orEmpty, ht, htne, hurl, hnp, hnt, hx1, hx2, hb1, hb2]
    · obtain ⟨hy1, hy2⟩ := hty y rfl
      rcases bs with _ | b
      · simp +decide [build_from_inputs, optEntry, dictGetD, dictGet, dictSet,
          setIfTruthy, orEmpty, ht, htne, hurl, hnp, hnt, hx1, hx2, hy1, hy2]
      · obtain ⟨hb1, hb2⟩ := hbs b rfl
        simp +decide [build_from_inputs, optEntry, dictGetD, dictGet, dictSet,
          setIfTruthy, orEmpty, ht, htne, hurl, hnp, hnt, hx1, hx2, hy1, hy2,
          hb1, hb2]

/-- Witness for C7 amended: a full input map of canonical values
round-trips. -/
theorem build_from_inputs_roundtrip_amended_witness :
    build_from_inputs
        ((fn_title, "T".data) ::
          (optEntry fn_pri (some "P1".data) ++
           optEntry fn_type (some "BUG".data) ++
           optEntry fn_src (some "用户反馈".data)))
        "https://x/1".data =
      (fn_title, "T".data) :: (fn_url, "https://x/1".data) ::
        (optEntry fn_pri (some "P1".data) ++
         optEntry fn_type (some "BUG".data) ++
         optEntry fn_src (some "用户反馈".data)) :=
  build_from_inputs_roundtrip_amended "T".data "https://x/1".data
    (some "P1".data) (some "BUG".data) (some "用户反馈".data)
    (by decide) (by decide) (by decide)
    (fun x hx => by cases hx; exact ⟨by decide, by decide⟩)
    (fun x hx => by cases hx; exact ⟨by decide, by decide⟩)
    (fun x hx => by cases hx; exact ⟨by decide, by decide⟩)
